import Mathlib

/-
  Shallow embedding of the chf-enquiries-map booking widget front end.

  Sources embedded:
  - src/lib/calendar-api.ts            (data model, getCalendarHeatMap, getDaySlots)
  - src/components/CalendarHeatMap.tsx (heat-map fetch state, tier sections, day controls)
  - the DaySlots component             (day-slot fetch state, period buckets, slot clicks)
  - src/components/ServiceAreaMap.tsx  (service-area membership check loop)
  - src/components/LeadInfoAccordion.tsx (accordion expand/collapse state)

  Point-in-polygon containment is performed by an external geometry library in
  the code, so the embedding takes the containment test as an oracle parameter.
-/

namespace ChfEnquiriesMap

/-- Day Entry of the heat-map response (interface DayData in calendar-api.ts). -/
structure DayData where
  date : String
  day_name : String
  day_number : Nat
  month_name : String
  available_count : Nat
  priority : String
  label : String
  color : String
  icon : String
  conversionRate : String
  message : String
  priorityScore : Int
  deriving DecidableEq

/-- One tier group of the heat-map response (label, days, total_slots). -/
structure TierGroup where
  label : String
  days : List DayData
  total_slots : Nat
  deriving DecidableEq

/-- The four fixed tier groups of the heat-map response. -/
structure PriorityBreakdown where
  critical : TierGroup
  urgent : TierGroup
  warm : TierGroup
  cooling : TierGroup
  deriving DecidableEq

/-- Heat-map response shape (interface HeatMapResponse in calendar-api.ts). -/
structure HeatMapResponse where
  region : String
  service_area_name : String
  coverage_description : String
  priority_breakdown : PriorityBreakdown
  total_slots_available : Nat
  deriving DecidableEq

/-- Time Slot of the day-slots response (interface TimeSlot in calendar-api.ts).
The period tag is assigned by the backend; the front end only reads it. -/
structure TimeSlot where
  event_id : String
  datetime : String
  time : String
  hour : Nat
  period : String
  deriving DecidableEq

/-- The slots of a day grouped by period, as delivered by the backend. -/
structure GroupedByPeriod where
  morning : List TimeSlot
  afternoon : List TimeSlot
  evening : List TimeSlot
  deriving DecidableEq

/-- Day-slots response shape (interface DaySlotsResponse in calendar-api.ts). -/
structure DaySlotsResponse where
  region : String
  service_area_name : String
  date : String
  day_display : String
  total_slots : Nat
  slots : List TimeSlot
  grouped_by_period : GroupedByPeriod
  deriving DecidableEq

/- ----------------------------------------------------------------
   CalendarHeatMap.tsx: day controls (DayRow, DayCard) and tier sections
   ---------------------------------------------------------------- -/

/-- A rendered day selection control: the day it shows, whether the button is
disabled, and the payload handed to the day-selection callback on click. -/
structure DayControl where
  day : DayData
  disabled : Bool
  onClickPayload : String × DayData
  deriving DecidableEq

/-- Embeds the DayRow component: the button is disabled when
available_count is 0 and its click handler calls onSelect(day.date, day). -/
def DayRow (day : DayData) : DayControl :=
  { day := day
    disabled := day.available_count == 0
    onClickPayload := (day.date, day) }

/-- Embeds the DayCard component: same disabled condition and click payload
as DayRow, rendered as a compact grid cell. -/
def DayCard (day : DayData) : DayControl :=
  { day := day
    disabled := day.available_count == 0
    onClickPayload := (day.date, day) }

/-- Embeds PrioritySection: renders nothing when the day list of the tier is
empty, otherwise one control per day, DayCard in compact mode and DayRow
otherwise. -/
def PrioritySection (tier : TierGroup) (compact : Bool) : List DayControl :=
  if tier.days.length = 0 then []
  else tier.days.map (fun day => if compact then DayCard day else DayRow day)

/-- Whether a section renders detailed rows (DayRow list) or a compact grid
(DayCard grid). -/
inductive SectionStyle where
  | detailed
  | compact
  deriving DecidableEq

/-- A rendered tier section: the tier group it shows and its display density. -/
structure RenderedSection where
  tier : TierGroup
  style : SectionStyle
  deriving DecidableEq

/-- The four candidate sections in the fixed layout order of the component:
critical (detailed), urgent (detailed), warm (compact), cooling (compact). -/
def heatMapSectionOrder (r : HeatMapResponse) : List RenderedSection :=
  [⟨r.priority_breakdown.critical, SectionStyle.detailed⟩,
   ⟨r.priority_breakdown.urgent, SectionStyle.detailed⟩,
   ⟨r.priority_breakdown.warm, SectionStyle.compact⟩,
   ⟨r.priority_breakdown.cooling, SectionStyle.compact⟩]

/-- Embeds the priority-sections block of CalendarHeatMap: each tier section is
emitted exactly when its day list has length greater than zero; critical and
urgent without the compact prop, warm and cooling with it. -/
def renderHeatMapSections (r : HeatMapResponse) : List RenderedSection :=
  (if 0 < r.priority_breakdown.critical.days.length
     then [⟨r.priority_breakdown.critical, SectionStyle.detailed⟩] else []) ++
  (if 0 < r.priority_breakdown.urgent.days.length
     then [⟨r.priority_breakdown.urgent, SectionStyle.detailed⟩] else []) ++
  (if 0 < r.priority_breakdown.warm.days.length
     then [⟨r.priority_breakdown.warm, SectionStyle.compact⟩] else []) ++
  (if 0 < r.priority_breakdown.cooling.days.length
     then [⟨r.priority_breakdown.cooling, SectionStyle.compact⟩] else [])

/-- All day controls the heat map renders, in layout order: the guarded
sections instantiated with PrioritySection (critical and urgent detailed,
warm and cooling compact). -/
def heatMapDayControls (r : HeatMapResponse) : List DayControl :=
  (if 0 < r.priority_breakdown.critical.days.length
     then PrioritySection r.priority_breakdown.critical false else []) ++
  (if 0 < r.priority_breakdown.urgent.days.length
     then PrioritySection r.priority_breakdown.urgent false else []) ++
  (if 0 < r.priority_breakdown.warm.days.length
     then PrioritySection r.priority_breakdown.warm true else []) ++
  (if 0 < r.priority_breakdown.cooling.days.length
     then PrioritySection r.priority_breakdown.cooling true else [])

/- ----------------------------------------------------------------
   CalendarHeatMap.tsx: component fetch state and top-level render
   ---------------------------------------------------------------- -/

/-- The view state of the CalendarHeatMap component: loading flag, the last
stored heat-map response, and the last stored error message. -/
structure HeatMapComponentState where
  loading : Bool
  heatMapData : Option HeatMapResponse
  error : Option String
  deriving DecidableEq

/-- The initial component state: not loading, no data, no error. -/
def initialHeatMapState : HeatMapComponentState :=
  { loading := false, heatMapData := none, error := none }

/-- Embeds fetchHeatMap: setLoading(true) and setError(null) on entry, then on
success setHeatMapData(data), on failure setError(message) with heatMapData
untouched, and finally setLoading(false). The argument is the settled outcome
of the awaited backend call. -/
def fetchHeatMap (s : HeatMapComponentState)
    (result : Except String HeatMapResponse) : HeatMapComponentState :=
  match result with
  | Except.ok data => { loading := false, heatMapData := some data, error := none }
  | Except.error message =>
      { loading := false, heatMapData := s.heatMapData, error := some message }

/-- What the CalendarHeatMap component shows for a given state. -/
inductive HeatMapView where
  | spinner
  | errorRetry (message : String)
  | enterPostcodePrompt
  | dataView (sections : List RenderedSection)
  deriving DecidableEq

/-- Embeds the early returns of CalendarHeatMap: loading shows the spinner,
then an error shows the message with the Try Again control, then missing data
shows the enter-a-postcode prompt, and otherwise the tier sections render. -/
def renderCalendarHeatMap (s : HeatMapComponentState) : HeatMapView :=
  if s.loading then HeatMapView.spinner
  else
    match s.error with
    | some message => HeatMapView.errorRetry message
    | none =>
        match s.heatMapData with
        | none => HeatMapView.enterPostcodePrompt
        | some r => HeatMapView.dataView (renderHeatMapSections r)

/-- Embeds the useEffect guard of CalendarHeatMap: fetchHeatMap runs only when
the postcode is truthy (non-empty) and its length is exactly 4. -/
def shouldFetchHeatMap (postcode : String) : Bool :=
  !(postcode == "") && postcode.length == 4

/- ----------------------------------------------------------------
   DaySlots component: slot click handling, fetch state, period buckets
   ---------------------------------------------------------------- -/

/-- The payload of the slot-selection callback: date, AM or PM designation,
and the selected Time Slot. -/
structure SlotSelection where
  date : String
  period : String
  slot : TimeSlot
  deriving DecidableEq

/-- Embeds handleSlotClick of the DaySlots component: the designation is AM
when the hour field of the slot is below 12 and PM otherwise, and the
callback receives the date, the designation and the full slot. -/
def handleSlotClick (date : String) (slot : TimeSlot) : SlotSelection :=
  { date := date
    period := if slot.hour < 12 then "AM" else "PM"
    slot := slot }

/-- A rendered period bucket: header title, header icon, and its slots. -/
structure PeriodSection where
  title : String
  icon : String
  slots : List TimeSlot
  deriving DecidableEq

/-- The three candidate period buckets in the fixed layout order of the
DaySlots component: morning, afternoon, evening. -/
def daySlotsPeriodOrder (r : DaySlotsResponse) : List PeriodSection :=
  [⟨"Morning", "🌅", r.grouped_by_period.morning⟩,
   ⟨"Afternoon", "☀️", r.grouped_by_period.afternoon⟩,
   ⟨"Evening", "🌙", r.grouped_by_period.evening⟩]

/-- The slots content of the DaySlots component: either the explicit
empty-state message or a list of period sections. -/
inductive DaySlotsContent where
  | emptyState
  | periodSections (sections : List PeriodSection)
  deriving DecidableEq

/-- Embeds the slots-content block of DaySlots: when total_slots is 0 the
empty-state message renders, otherwise each period bucket renders exactly
when it has at least one slot, in the order morning, afternoon, evening. -/
def renderDaySlotsContent (r : DaySlotsResponse) : DaySlotsContent :=
  if r.total_slots = 0 then DaySlotsContent.emptyState
  else
    DaySlotsContent.periodSections
      ((if 0 < r.grouped_by_period.morning.length
          then [⟨"Morning", "🌅", r.grouped_by_period.morning⟩] else []) ++
       (if 0 < r.grouped_by_period.afternoon.length
          then [⟨"Afternoon", "☀️", r.grouped_by_period.afternoon⟩] else []) ++
       (if 0 < r.grouped_by_period.evening.length
          then [⟨"Evening", "🌙", r.grouped_by_period.evening⟩] else []))

/-- The view state of the DaySlots component. -/
structure DaySlotsComponentState where
  loading : Bool
  slotsData : Option DaySlotsResponse
  error : Option String
  deriving DecidableEq

/-- Embeds fetchDaySlots: same shape as fetchHeatMap, over the day-slots
response; on failure slotsData is untouched. -/
def fetchDaySlots (s : DaySlotsComponentState)
    (result : Except String DaySlotsResponse) : DaySlotsComponentState :=
  match result with
  | Except.ok data => { loading := false, slotsData := some data, error := none }
  | Except.error message =>
      { loading := false, slotsData := s.slotsData, error := some message }

/-- What the DaySlots component shows for a given state. -/
inductive DaySlotsView where
  | spinner
  | errorRetry (message : String)
  | nothingView
  | content (c : DaySlotsContent)
  deriving DecidableEq

/-- Embeds the early returns of DaySlots: loading shows the spinner, then an
error shows the message with the Try Again control, then missing data renders
null, and otherwise the slots content renders. -/
def renderDaySlots (s : DaySlotsComponentState) : DaySlotsView :=
  if s.loading then DaySlotsView.spinner
  else
    match s.error with
    | some message => DaySlotsView.errorRetry message
    | none =>
        match s.slotsData with
        | none => DaySlotsView.nothingView
        | some r => DaySlotsView.content (renderDaySlotsContent r)

/- ----------------------------------------------------------------
   calendar-api.ts: getCalendarHeatMap and getDaySlots
   ---------------------------------------------------------------- -/

/-- The error object a backend function invocation may return; its message
field may be absent. -/
structure InvokeError where
  message : Option String
  deriving DecidableEq

/-- The result of supabase.functions.invoke: a data payload and an optional
error object. -/
structure InvokeResult (α : Type) where
  data : α
  error : Option InvokeError

/-- Embeds the JavaScript expression a || b over an optional string: the
fallback is used when the string is absent or empty (falsy). -/
def jsStringOr (o : Option String) (fallback : String) : String :=
  match o with
  | some s => if s = "" then fallback else s
  | none => fallback

/-- Embeds getCalendarHeatMap in calendar-api.ts: the argument is none when
getSupabase() yields no client, otherwise the settled invocation result of
the get-calendar-heatmap function. Throws become Except.error. -/
def getCalendarHeatMap
    (supabase : Option (InvokeResult HeatMapResponse)) :
    Except String HeatMapResponse :=
  match supabase with
  | none => Except.error "Supabase client not available"
  | some res =>
      match res.error with
      | some e => Except.error (jsStringOr e.message "Failed to fetch calendar availability")
      | none => Except.ok res.data

/-- Embeds getDaySlots in calendar-api.ts, with the same shape as
getCalendarHeatMap over the get-day-slots function. -/
def getDaySlots
    (supabase : Option (InvokeResult DaySlotsResponse)) :
    Except String DaySlotsResponse :=
  match supabase with
  | none => Except.error "Supabase client not available"
  | some res =>
      match res.error with
      | some e => Except.error (jsStringOr e.message "Failed to fetch day slots")
      | none => Except.ok res.data

/- ----------------------------------------------------------------
   ServiceAreaMap.tsx: service-area membership check
   ---------------------------------------------------------------- -/

/-- A GeoJSON feature as the map component reads it: optional name, type and
style properties, whether its geometry is a Polygon, and an identifier
standing for its coordinate array. The coordinates themselves are consumed
only by the external geometry library, abstracted as the containment oracle
below. -/
structure GeoFeature where
  name : Option String
  ptype : Option String
  style : Option String
  isPolygon : Bool
  geomId : Nat
  deriving DecidableEq

/-- The filter the check loop applies to a feature: Polygon geometry with a
type property equal to service_area. -/
def isServiceAreaPolygon (f : GeoFeature) : Bool :=
  f.isPolygon && f.ptype == some "service_area"

/-- Embeds the for loop of the coordinate-change effect in ServiceAreaMap:
walk the features in order, skip those that are not service-area polygons,
and stop at the first whose polygon contains the test point, taking its name
with the Unknown Area fallback. The oracle containsPt stands for the
booleanPointInPolygon library call applied to the fixed test point and the
geometry behind geomId. -/
def findServiceAreaName (containsPt : Nat → Bool) :
    List GeoFeature → Option String
  | [] => none
  | f :: rest =>
      if f.isPolygon && f.ptype == some "service_area" then
        if containsPt f.geomId then some (jsStringOr f.name "Unknown Area")
        else findServiceAreaName containsPt rest
      else findServiceAreaName containsPt rest

/-- Embeds the callback invocation onServiceAreaCheck(foundArea !== null,
foundArea): the single pair handed to the reporting callback. -/
def checkServiceArea (containsPt : Nat → Bool)
    (features : List GeoFeature) : Bool × Option String :=
  ((findServiceAreaName containsPt features).isSome,
   findServiceAreaName containsPt features)

/- ----------------------------------------------------------------
   LeadInfoAccordion.tsx: expanded-state operations
   ---------------------------------------------------------------- -/

/-- The fixed section order of the Lead Panel (sectionOrder in
LeadInfoAccordion). -/
def sectionOrder : List String :=
  ["contact", "leadManagement", "property", "waterAssessment",
   "appointment", "referrals", "salesNotes", "statusFlags"]

/-- Modelled from the spec: the sections object of the lead record. Its type
LeadData is declared in src/lib/lead-api.ts, which is not among the source
files; per the spec the lead record has a fixed, ordered set of eight named
sections (contact, lead management, property, water assessment, appointment,
referrals, sales notes, status flags), so Object.keys(leadData.sections)
yields exactly these eight keys in this order. -/
def leadSectionsKeys : List String :=
  ["contact", "leadManagement", "property", "waterAssessment",
   "appointment", "referrals", "salesNotes", "statusFlags"]

/-- The initial expanded-state of the accordion (all eight sections expanded),
from the useState initialiser of LeadInfoAccordion. -/
def initialExpandedSections : Finset String :=
  ["contact", "leadManagement", "property", "waterAssessment",
   "appointment", "referrals", "salesNotes", "statusFlags"].toFinset

/-- Embeds toggleSection: delete the key when present, add it otherwise. -/
def toggleSection (sectionKey : String) (prev : Finset String) : Finset String :=
  if sectionKey ∈ prev then prev.erase sectionKey else insert sectionKey prev

/-- Embeds expandAll: the new expanded-state is the set of all keys of
leadData.sections (see leadSectionsKeys). -/
def expandAll : Finset String := leadSectionsKeys.toFinset

/-- Embeds collapseAll: the new expanded-state is the empty set. -/
def collapseAll : Finset String := (∅ : Finset String)

/-- Embeds allExpanded: expandedSections.size === sectionOrder.length, the
disabled condition of the Expand All control. -/
def allExpanded (expandedSections : Finset String) : Bool :=
  expandedSections.card == sectionOrder.length

/-- Embeds allCollapsed: expandedSections.size === 0, the disabled condition
of the Collapse All control. -/
def allCollapsed (expandedSections : Finset String) : Bool :=
  expandedSections.card == 0

/- ----------------------------------------------------------------
   Sample values for witnesses and counterexamples
   ---------------------------------------------------------------- -/

/-- A sample critical Day Entry with three available slots. -/
def sampleDay : DayData :=
  { date := "2025-01-06", day_name := "Mon", day_number := 6,
    month_name := "Jan", available_count := 3, priority := "critical",
    label := "Today", color := "#DC2626", icon := "🔥",
    conversionRate := "85%", message := "Book now", priorityScore := 100 }

/-- A tier group holding no days. -/
def emptyTier : TierGroup := { label := "", days := [], total_slots := 0 }

/-- A sample heat-map response with one critical day and the other tiers
empty. -/
def sampleHeatMapResponse : HeatMapResponse :=
  { region := "VIC"
    service_area_name := "North Zone"
    coverage_description := "Northern suburbs"
    priority_breakdown :=
      { critical := { label := "Today", days := [sampleDay], total_slots := 3 }
        urgent := emptyTier
        warm := emptyTier
        cooling := emptyTier }
    total_slots_available := 3 }

/-- A sample morning Time Slot at hour 9. -/
def sampleSlot : TimeSlot :=
  { event_id := "evt-1", datetime := "2025-01-06T09:00:00",
    time := "9:00 AM", hour := 9, period := "morning" }

/-- A sample day-slots response with a single morning slot. -/
def sampleDaySlotsResponse : DaySlotsResponse :=
  { region := "VIC"
    service_area_name := "North Zone"
    date := "2025-01-06"
    day_display := "Monday, 6 January"
    total_slots := 1
    slots := [sampleSlot]
    grouped_by_period := { morning := [sampleSlot], afternoon := [], evening := [] } }

/-- A sample service-area polygon feature named North Zone. -/
def northZoneFeature : GeoFeature :=
  { name := some "North Zone", ptype := some "service_area",
    style := some "#poly-9C27B0-1200-179", isPolygon := true, geomId := 0 }

/- ----------------------------------------------------------------
   Helper lemmas
   ---------------------------------------------------------------- -/

/-- Any control emitted by a guarded PrioritySection is a DayRow or a DayCard
of some day. -/
lemma mem_guarded_section {c : DayControl} {n : Nat} {tier : TierGroup}
    {compact : Bool}
    (h : c ∈ if 0 < n then PrioritySection tier compact else []) :
    ∃ d : DayData, c = DayRow d ∨ c = DayCard d := by
  split at h
  · unfold PrioritySection at h
    split at h
    · simp at h
    · rcases List.mem_map.1 h with ⟨d, -, rfl⟩
      refine ⟨d, ?_⟩
      cases compact
      · exact Or.inl (by simp)
      · exact Or.inr (by simp)
  · simp at h

/-- The check loop of ServiceAreaMap computes the first service-area polygon
containing the point, with the Unknown Area name fallback. -/
lemma findServiceAreaName_eq_find (containsPt : Nat → Bool)
    (features : List GeoFeature) :
    findServiceAreaName containsPt features =
      ((features.filter isServiceAreaPolygon).find?
          (fun f => containsPt f.geomId)).map
        (fun f => jsStringOr f.name "Unknown Area") := by
  induction features with
  | nil => rfl
  | cons f rest ih =>
      by_cases hp : (f.isPolygon && f.ptype == some "service_area") = true
      · by_cases hcp : containsPt f.geomId = true
        · simp [findServiceAreaName, isServiceAreaPolygon, hp, hcp,
            List.filter_cons, List.find?]
        · simp [findServiceAreaName, isServiceAreaPolygon, hp, hcp,
            List.filter_cons, List.find?, ih]
      · simp [findServiceAreaName, isServiceAreaPolygon, hp,
          List.filter_cons, ih]

/-- jsStringOr never yields the empty string when its fallback is not empty. -/
lemma jsStringOr_ne_empty (o : Option String) (fallback : String)
    (h : fallback ≠ "") : jsStringOr o fallback ≠ "" := by
  cases o with
  | none => simpa [jsStringOr] using h
  | some s =>
      rcases eq_or_ne s "" with hs | hs
      · simpa [jsStringOr, hs] using h
      · simp [jsStringOr, hs]

/- ----------------------------------------------------------------
   Claim theorems
   ---------------------------------------------------------------- -/

/-- C1: for every heat-map response the component renders exactly the tiers
whose day list is non-empty, in the fixed order critical, urgent, warm,
cooling, with critical and urgent as detailed lists and warm and cooling as
compact grids. -/
theorem heatmap_renders_exactly_nonempty_tiers (r : HeatMapResponse) :
    renderHeatMapSections r =
      (heatMapSectionOrder r).filter (fun s => !s.tier.days.isEmpty) := by
  simp only [renderHeatMapSections, heatMapSectionOrder]
  cases hc : r.priority_breakdown.critical.days <;>
  cases hu : r.priority_breakdown.urgent.days <;>
  cases hw : r.priority_breakdown.warm.days <;>
  cases hl : r.priority_breakdown.cooling.days <;>
  simp [hc, hu, hw, hl]

/-- C2: every day control the heat map renders, whether a detailed row or a
compact card, is disabled exactly when the available count of its day is 0,
and its click payload is the date of the day together with the full Day
Entry. -/
theorem heatmap_day_control_spec (r : HeatMapResponse) (c : DayControl)
    (hc : c ∈ heatMapDayControls r) :
    (c.disabled = true ↔ c.day.available_count = 0) ∧
    c.onClickPayload = (c.day.date, c.day) := by
  simp only [heatMapDayControls, List.mem_append] at hc
  have hdc : ∃ d : DayData, c = DayRow d ∨ c = DayCard d := by
    rcases hc with ((h | h) | h) | h <;> exact mem_guarded_section h
  rcases hdc with ⟨d, rfl | rfl⟩ <;>
    simp [DayRow, DayCard, Nat.beq_eq_true_eq]

/-- C2 witness: the sample critical day with three slots yields an enabled
row whose click payload carries its date and full entry. -/
theorem heatmap_day_control_spec_witness :
    ((DayRow sampleDay).disabled = true ↔
        (DayRow sampleDay).day.available_count = 0) ∧
    (DayRow sampleDay).onClickPayload =
      ((DayRow sampleDay).day.date, (DayRow sampleDay).day) :=
  heatmap_day_control_spec sampleHeatMapResponse (DayRow sampleDay)
    (by simp [heatMapDayControls, sampleHeatMapResponse, PrioritySection,
      emptyTier])

/-- C3: selecting a time slot reports designation AM exactly when the hour
field is below 12 and PM otherwise, and hands the callback the date, the
designation, and the full Time Slot. -/
theorem slot_click_am_pm (date : String) (slot : TimeSlot) :
    (slot.hour < 12 → handleSlotClick date slot =
        { date := date, period := "AM", slot := slot }) ∧
    (12 ≤ slot.hour → handleSlotClick date slot =
        { date := date, period := "PM", slot := slot }) ∧
    (handleSlotClick date slot).date = date ∧
    (handleSlotClick date slot).slot = slot := by
  refine ⟨?_, ?_, rfl, rfl⟩
  · intro h
    simp [handleSlotClick, h]
  · intro h
    simp [handleSlotClick, Nat.not_lt.2 h]

/-- C4: the service-area check reports exactly the first feature, in dataset
insertion order, whose geometry is a Polygon, whose type property is
service_area and whose polygon contains the point: the callback pair is
(true, its name, with the Unknown Area fallback for a missing or empty name)
when such a feature exists and (false, none) otherwise. -/
theorem service_area_check_first_match (containsPt : Nat → Bool)
    (features : List GeoFeature) :
    checkServiceArea containsPt features =
      match (features.filter isServiceAreaPolygon).find?
          (fun f => containsPt f.geomId) with
      | some f => (true, some (jsStringOr f.name "Unknown Area"))
      | none => (false, none) := by
  unfold checkServiceArea
  rw [findServiceAreaName_eq_find]
  cases (features.filter isServiceAreaPolygon).find?
      (fun f => containsPt f.geomId) <;> simp

/-- C5 counterexample: a heat-map fetch that fails with a network error keeps
the previously stored successful response in state (it is not discarded),
even though the error and retry control are the rendered view. -/
theorem fetch_error_retains_previous_response :
    (fetchHeatMap
        { loading := false, heatMapData := some sampleHeatMapResponse,
          error := none }
        (Except.error "Network error")).heatMapData
      = some sampleHeatMapResponse ∧
    (fetchHeatMap
        { loading := false, heatMapData := some sampleHeatMapResponse,
          error := none }
        (Except.error "Network error")).heatMapData ≠ none ∧
    renderCalendarHeatMap
        (fetchHeatMap
          { loading := false, heatMapData := some sampleHeatMapResponse,
            error := none }
          (Except.error "Network error"))
      = HeatMapView.errorRetry "Network error" := by
  refine ⟨rfl, by simp [fetchHeatMap], rfl⟩

/-- C5 amended: when a heat-map or day-slots fetch fails, the previously
stored successful response is retained unchanged in component state, while
the error and retry control are what the component renders in its place. -/
theorem fetch_error_keeps_state_shows_retry (s : HeatMapComponentState)
    (t : DaySlotsComponentState) (msg msg2 : String) :
    ((fetchHeatMap s (Except.error msg)).heatMapData = s.heatMapData ∧
     renderCalendarHeatMap (fetchHeatMap s (Except.error msg)) =
       HeatMapView.errorRetry msg) ∧
    ((fetchDaySlots t (Except.error msg2)).slotsData = t.slotsData ∧
     renderDaySlots (fetchDaySlots t (Except.error msg2)) =
       DaySlotsView.errorRetry msg2) :=
  ⟨⟨rfl, rfl⟩, ⟨rfl, rfl⟩⟩

/-- C6: getCalendarHeatMap and getDaySlots fail with a non-empty message
exactly when the backend client is unavailable or the invocation carries an
error object, and otherwise return the remote response data unchanged. -/
theorem api_calls_error_iff_unavailable_or_remote_error
    (hm : Option (InvokeResult HeatMapResponse))
    (ds : Option (InvokeResult DaySlotsResponse)) :
    (((∃ m, getCalendarHeatMap hm = Except.error m ∧ m ≠ "") ↔
        (hm = none ∨ ∃ res, hm = some res ∧ res.error ≠ none)) ∧
     (∀ res, hm = some res → res.error = none →
        getCalendarHeatMap hm = Except.ok res.data)) ∧
    (((∃ m, getDaySlots ds = Except.error m ∧ m ≠ "") ↔
        (ds = none ∨ ∃ res, ds = some res ∧ res.error ≠ none)) ∧
     (∀ res, ds = some res → res.error = none →
        getDaySlots ds = Except.ok res.data)) := by
  constructor
  · constructor
    · constructor
      · rintro ⟨m, herr, -⟩
        cases hm with
        | none => exact Or.inl rfl
        | some res =>
            cases hres : res.error with
            | none => simp [getCalendarHeatMap, hres] at herr
            | some e => exact Or.inr ⟨res, rfl, by simp [hres]⟩
      · rintro (rfl | ⟨res, rfl, hne⟩)
        · exact ⟨"Supabase client not available", rfl, by decide⟩
        · cases hres : res.error with
          | none => exact absurd hres hne
          | some e =>
              exact ⟨jsStringOr e.message "Failed to fetch calendar availability",
                by simp [getCalendarHeatMap, hres],
                jsStringOr_ne_empty _ _ (by decide)⟩
    · intro res hres herrnone
      subst hres
      simp [getCalendarHeatMap, herrnone]
  · constructor
    · constructor
      · rintro ⟨m, herr, -⟩
        cases ds with
        | none => exact Or.inl rfl
        | some res =>
            cases hres : res.error with
            | none => simp [getDaySlots, hres] at herr
            | some e => exact Or.inr ⟨res, rfl, by simp [hres]⟩
      · rintro (rfl | ⟨res, rfl, hne⟩)
        · exact ⟨"Supabase client not available", rfl, by decide⟩
        · cases hres : res.error with
          | none => exact absurd hres hne
          | some e =>
              exact ⟨jsStringOr e.message "Failed to fetch day slots",
                by simp [getDaySlots, hres],
                jsStringOr_ne_empty _ _ (by decide)⟩
    · intro res hres herrnone
      subst hres
      simp [getDaySlots, herrnone]

/-- C7: the day-slots content is the explicit empty state exactly when
total_slots is 0, and otherwise it is exactly the non-empty period buckets in
the fixed order morning, afternoon, evening. -/
theorem dayslots_empty_state_iff_zero_total (r : DaySlotsResponse) :
    (renderDaySlotsContent r = DaySlotsContent.emptyState ↔
      r.total_slots = 0) ∧
    (r.total_slots ≠ 0 →
      renderDaySlotsContent r =
        DaySlotsContent.periodSections
          ((daySlotsPeriodOrder r).filter (fun p => !p.slots.isEmpty))) := by
  constructor
  · constructor
    · intro h
      by_contra hne
      simp [renderDaySlotsContent, hne] at h
    · intro h
      simp [renderDaySlotsContent, h]
  · intro h
    simp only [renderDaySlotsContent, if_neg h, daySlotsPeriodOrder]
    cases hmo : r.grouped_by_period.morning <;>
    cases ha : r.grouped_by_period.afternoon <;>
    cases he : r.grouped_by_period.evening <;>
    simp [hmo, ha, he]

/-- C8: Expand All sets the expanded-state to the set of all section keys of
the lead record, Collapse All sets it to the empty set, and under the
expanded-state invariant each control is disabled exactly when the state is
already all-expanded, respectively all-collapsed. -/
theorem lead_panel_expand_collapse_controls (s : Finset String)
    (hs : s ⊆ leadSectionsKeys.toFinset) :
    expandAll = leadSectionsKeys.toFinset ∧
    collapseAll = ∅ ∧
    (allExpanded s = true ↔ s = leadSectionsKeys.toFinset) ∧
    (allCollapsed s = true ↔ s = ∅) := by
  have hcard : (leadSectionsKeys.toFinset).card = 8 := by decide
  refine ⟨rfl, rfl, ?_, ?_⟩
  · constructor
    · intro h
      have hc : s.card = 8 := by
        simpa [allExpanded, sectionOrder] using h
      exact Finset.eq_of_subset_of_card_le hs (hcard.trans_le hc.ge)
    · rintro rfl
      decide
  · constructor
    · intro h
      have hc : s.card = 0 := by simpa [allCollapsed] using h
      exact Finset.card_eq_zero.1 hc
    · rintro rfl
      decide

/-- C8 witness: starting from the default all-expanded state, the controls
behave as the theorem states. -/
theorem lead_panel_expand_collapse_controls_witness :
    expandAll = leadSectionsKeys.toFinset ∧
    collapseAll = ∅ ∧
    (allExpanded initialExpandedSections = true ↔
      initialExpandedSections = leadSectionsKeys.toFinset) ∧
    (allCollapsed initialExpandedSections = true ↔
      initialExpandedSections = ∅) :=
  lead_panel_expand_collapse_controls initialExpandedSections (by decide)

/-- C9: the heat-map component fetches exactly when the postcode is
non-empty of length 4, and while nothing has been fetched the component
shows the enter-a-postcode prompt. -/
theorem heatmap_fetch_guard_and_prompt (p : String) :
    (shouldFetchHeatMap p = true ↔ (p ≠ "" ∧ p.length = 4)) ∧
    renderCalendarHeatMap initialHeatMapState =
      HeatMapView.enterPostcodePrompt := by
  refine ⟨?_, rfl⟩
  simp [shouldFetchHeatMap]

/-- C10: from any expanded-state inside the eight fixed section keys, every
accordion operation stays inside those keys, and the size-based checks of
the component coincide with all-expanded and all-collapsed. -/
theorem expanded_state_subset_invariant (s : Finset String) (k : String)
    (hs : s ⊆ leadSectionsKeys.toFinset) (hk : k ∈ sectionOrder) :
    initialExpandedSections ⊆ leadSectionsKeys.toFinset ∧
    toggleSection k s ⊆ leadSectionsKeys.toFinset ∧
    expandAll ⊆ leadSectionsKeys.toFinset ∧
    collapseAll ⊆ leadSectionsKeys.toFinset ∧
    (s.card = sectionOrder.length ↔ s = leadSectionsKeys.toFinset) ∧
    (s.card = 0 ↔ s = ∅) := by
  have hcard : (leadSectionsKeys.toFinset).card = 8 := by decide
  have h8 : sectionOrder.length = 8 := rfl
  refine ⟨by decide, ?_, ?_, ?_, ?_, Finset.card_eq_zero⟩
  · unfold toggleSection
    split
    · exact (Finset.erase_subset _ _).trans hs
    · refine Finset.insert_subset_iff.2 ⟨?_, hs⟩
      exact List.mem_toFinset.2 hk
  · exact Finset.Subset.refl _
  · exact Finset.empty_subset _
  · constructor
    · intro hc
      rw [h8] at hc
      exact Finset.eq_of_subset_of_card_le hs (hcard.trans_le hc.ge)
    · rintro rfl
      rw [hcard, h8]

/-- C10 witness: the invariant holds at the initial all-expanded state for
the contact section key. -/
theorem expanded_state_subset_invariant_witness :
    initialExpandedSections ⊆ leadSectionsKeys.toFinset ∧
    toggleSection "contact" initialExpandedSections ⊆
      leadSectionsKeys.toFinset ∧
    expandAll ⊆ leadSectionsKeys.toFinset ∧
    collapseAll ⊆ leadSectionsKeys.toFinset ∧
    (initialExpandedSections.card = sectionOrder.length ↔
      initialExpandedSections = leadSectionsKeys.toFinset) ∧
    (initialExpandedSections.card = 0 ↔ initialExpandedSections = ∅) :=
  expanded_state_subset_invariant initialExpandedSections "contact"
    (by decide) (by decide)

end ChfEnquiriesMap
